import Mathlib

/-!
Shallow embedding of the `cloudlogging` Go module (qvik/go-cloudlogging).

The embedding follows the final revision of the Logger module (the
`gcloudlog` / "Google Cloud Logging" variant): its `Logger` struct,
`WithAdditionalKeysAndValues`, `NewLogger`, `SetLogLevel`, `Close`, `Flush`,
`logImplf`, `logImpl` and the public logging verbs, together with the
`internal` package helpers (`MustApplyKeysAndValues`, `GetArg`), the
convenience constructor `NewCloudFunctionLogger`, and - for comparison - the
labels computation of the structured `logImpl` of the earlier base-logger
revision (src/logging.go).

Modelling conventions:
  * Go `interface` values that flow through the logging API are modelled by
    `GoVal` (string, integer or boolean - the value kinds exercised by the
    module's own tests).
  * A Go `map[interface]interface` is an association list with unique keys
    (`GoAssoc`); `goInsert` is Go map assignment, `goLookup` is Go map read.
    The list order stands in for Go's (unspecified) iteration order.
  * Go maps are reference values.  The map heap is an explicit `Store` (a
    list of maps addressed by index) so that aliasing and non-mutation are
    expressible; a `Logger` holds the index of its common-fields map.
  * Calls into the external backend libraries (the Google Cloud Logging
    client and the Zap logger) are recorded as trace events; their error
    returns are supplied by explicit environment records.  Zap's `Fatalf` /
    `Fatalw` terminate the process as part of their native emit, which the
    trace records in `zapExits`.
  * A Go `log.Panicf` fail-fast abort is modelled by returning `none`.
-/

namespace Cloudlogging

/-- Dynamically typed Go value (`interface` value) carried through the
logging API: a string, an integer or a boolean. -/
inductive GoVal where
  | str (s : String)
  | int (n : Int)
  | bool (b : Bool)
deriving DecidableEq, Repr

/-- Model of `fmt.Sprint` / `fmt.Sprintf("%v", x)` on a scalar dynamic
value: strings render as themselves, integers in decimal, booleans as
`true`/`false`. -/
def goSprint : GoVal → String
  | .str s => s
  | .int n => toString n
  | .bool true => "true"
  | .bool false => "false"

/-- Model of `fmt.Sprintf("%+v", x)`: on scalar dynamic values the `%+v`
verb renders exactly like `%v`. -/
def goSprintPlus : GoVal → String
  | .str s => s
  | .int n => toString n
  | .bool true => "true"
  | .bool false => "false"

/-- Abstract executable model of `fmt.Sprintf(format, args...)` (external
`fmt` library): an injective-enough aggregation of the format string and
the rendered arguments.  No claim inspects the rendered text. -/
def fmtSprintf (format : String) (args : List GoVal) : String :=
  (args.map goSprint).foldl (fun acc s => acc ++ " " ++ s) format

/-- A Go map value: an association list whose keys are unique.  The list
order models Go's unspecified iteration order. -/
abbrev GoAssoc (α β : Type) := List (α × β)

/-- Go map assignment `m[k] = v`: overwrite the binding of `k` in place if
present, otherwise append a new binding. -/
def goInsert [DecidableEq α] : GoAssoc α β → α → β → GoAssoc α β
  | [], k, v => [(k, v)]
  | (k', v') :: rest, k, v =>
      if k' = k then (k, v) :: rest else (k', v') :: goInsert rest k v

/-- Go map read `m[k]`: the binding of `k`, if any. -/
def goLookup [DecidableEq α] : GoAssoc α β → α → Option β
  | [], _ => none
  | (k', v') :: rest, k => if k' = k then some v' else goLookup rest k

/-- Pair up a flat `key1, value1, key2, value2, ...` argument list.  All
source loops that read `kvs[i], kvs[i+1]` run under an even-length guard,
which this pairing mirrors. -/
def toPairs : List α → List (α × α)
  | k :: v :: rest => (k, v) :: toPairs rest
  | _ => []

/-- Write a list of key/value pairs into a map in order (Go loop
`for ...: m[k] = v`); a later binding of the same key overwrites an
earlier one. -/
def applyPairs [DecidableEq α] : List (α × β) → GoAssoc α β → GoAssoc α β
  | [], m => m
  | (k, v) :: rest, m => applyPairs rest (goInsert m k v)

/-- The last binding of `x` in a pair list (the binding that survives when
the list is written into a map in order). -/
def lastLookup [DecidableEq α] : List (α × β) → α → Option β
  | [], _ => none
  | (k, v) :: rest, x =>
      match lastLookup rest x with
      | some w => some w
      | none => if x = k then some v else none

/-- First-`some` choice on options (strict version of `orElse`). -/
def orElseV : Option β → Option β → Option β
  | some w, _ => some w
  | none, b => b

/-- A `map[interface]interface` of common log fields. -/
abbrev GoMap := GoAssoc GoVal GoVal

/-- A `map[string]string` of rendered entry labels. -/
abbrev GoStrMap := GoAssoc String String

/-- The heap of Go map values; a map reference is an index into it. -/
abbrev Store := List GoMap

/-- Dereference a map (out-of-range references read as the empty map). -/
def storeGet : Store → Nat → GoMap
  | [], _ => []
  | m :: _, 0 => m
  | _ :: rest, i + 1 => storeGet rest i

/-- Overwrite the map at a reference. -/
def storeSet : Store → Nat → GoMap → Store
  | [], _, _ => []
  | _ :: rest, 0, m => m :: rest
  | x :: rest, i + 1, m => x :: storeSet rest i m

/-- Allocate a fresh map (Go `make(map[...]...)` plus initial contents)
and return its reference. -/
def storeAlloc (s : Store) (m : GoMap) : Store × Nat := (s ++ [m], s.length)

/-- The five log levels (`Level int8`; `Debug = iota`, ..., `Fatal`). -/
inductive Level where
  | debug | info | warning | error | fatal
deriving DecidableEq, Repr

/-- The numeric value of a level constant (`Debug = 0`, ..., `Fatal = 4`). -/
def Level.toNat : Level → Nat
  | .debug => 0
  | .info => 1
  | .warning => 2
  | .error => 3
  | .fatal => 4

/-- The `int8` comparison `a < b` on level constants. -/
def levelLt (a b : Level) : Bool := decide (a.toNat < b.toNat)

/-- Severities of the Google Cloud Logging backend used by the module. -/
inductive GclSeverity where
  | default | debug | info | warning | error | critical
deriving DecidableEq, Repr

/-- The `levelToGoogleCloudLoggingSeverityMap` table installed by `init()`. -/
def levelToGoogleCloudLoggingSeverityMap : GoAssoc Level GclSeverity :=
  [(.debug, .debug), (.info, .info), (.warning, .warning),
   (.error, .error), (.fatal, .critical)]

/-- `severity := gcloudlog.Default; if s, ok := map[level]; ok { severity = s }`. -/
def gclSeverityFor (level : Level) : GclSeverity :=
  match goLookup levelToGoogleCloudLoggingSeverityMap level with
  | some s => s
  | none => .default

/-- The flat (printf-style) emission functions of the Zap sugared logger. -/
inductive ZapFlatFn where
  | debugf | infof | warnf | errorf | fatalf
deriving DecidableEq, Repr

/-- The structured emission functions of the Zap sugared logger. -/
inductive ZapStructuredFn where
  | debugw | infow | warnw | errorw | fatalw
deriving DecidableEq, Repr

/-- `levelToZapFlatLogFunc`: the switch from levels to Zap printf-style
functions.  The `default: nil` branch of the source switch is unreachable
for the five level constants. -/
def levelToZapFlatLogFunc : Level → Option ZapFlatFn
  | .debug => some .debugf
  | .info => some .infof
  | .warning => some .warnf
  | .error => some .errorf
  | .fatal => some .fatalf

/-- `levelToZapStructuredLogFunc`: the switch from levels to Zap structured
functions.  The `default: nil` branch is unreachable for the five level
constants. -/
def levelToZapStructuredLogFunc : Level → Option ZapStructuredFn
  | .debug => some .debugw
  | .info => some .infow
  | .warning => some .warnw
  | .error => some .errorw
  | .fatal => some .fatalw

/-- Whether a Zap flat emission function terminates the process as part of
its native call (`zap.SugaredLogger.Fatalf` calls `os.Exit`). -/
def zapFlatFnExits : ZapFlatFn → Bool
  | .fatalf => true
  | _ => false

/-- Whether a Zap structured emission function terminates the process as
part of its native call (`zap.SugaredLogger.Fatalw` calls `os.Exit`). -/
def zapStructuredFnExits : ZapStructuredFn → Bool
  | .fatalw => true
  | _ => false

/-- The final-revision `Logger` struct.  Pointer-typed backend fields are
modelled by their non-nilness; `commonKeysAndValues` is a reference into
the map `Store`. -/
structure Logger where
  logLevel : Level
  zapLogger : Bool
  googleCloudLoggingClient : Bool
  googleCloudLoggingLogger : Bool
  commonKeysAndValues : Nat
  googleCloudLoggingDebugHook : Bool
deriving DecidableEq, Repr

/-- `internal.MustApplyKeysAndValues(keysAndValues, toMap)`: writes the flat
key/value list into the referenced map; returns unchanged on an empty list
and panics (`none`) on an odd-length list. -/
def mustApplyKeysAndValues (keysAndValues : List GoVal) (store : Store)
    (toMap : Nat) : Option Store :=
  if keysAndValues.length = 0 then some store
  else if keysAndValues.length % 2 ≠ 0 then none
  else some (storeSet store toMap
    (applyPairs (toPairs keysAndValues) (storeGet store toMap)))

/-- The copy loop of `WithAdditionalKeysAndValues`: a fresh map receiving
every binding of the parent map. -/
def goMapCopy (m : GoMap) : GoMap := applyPairs m []

/-- `(*Logger).WithAdditionalKeysAndValues(keysAndValues...)` of the final
revision: panics (`none`) on an empty or odd-length argument list; copies
the parent's common map into a freshly allocated map, writes the new pairs
into the copy, and returns a struct-copy of the parent that references the
fresh map.  (The Zap sub-logger rebuild only re-bakes the same merged
fields into the external Zap logger and is not separately observable
here; the source panics if that external rebuild fails.) -/
def withAdditionalKeysAndValues (store : Store) (l : Logger)
    (keysAndValues : List GoVal) : Option (Store × Logger) :=
  if keysAndValues.length = 0 then none
  else if keysAndValues.length % 2 ≠ 0 then none
  else
    let alloc := storeAlloc store (goMapCopy (storeGet store l.commonKeysAndValues))
    match mustApplyKeysAndValues keysAndValues alloc.1 alloc.2 with
    | none => none
    | some store2 => some (store2, { l with commonKeysAndValues := alloc.2 })

/-- One Google Cloud Logging entry as submitted by the module
(`gcloudlog.Entry{Payload, Labels, Severity}`). -/
structure GclEntry where
  payload : GoVal
  labels : GoStrMap
  severity : GclSeverity
deriving DecidableEq, Repr

/-- Trace of one flat logging call: the cloud entries submitted, the Zap
flat functions invoked, and whether the Zap call terminated the process. -/
structure FlatTrace where
  gclEntries : List GclEntry
  zapCalls : List ZapFlatFn
  zapExits : Bool
deriving DecidableEq, Repr

/-- Trace of one structured logging call. -/
structure StructuredTrace where
  gclEntries : List GclEntry
  zapCalls : List ZapStructuredFn
  zapExits : Bool
deriving DecidableEq, Repr

/-- `(*Logger).logImplf(level, format, args...)`: gate by the logger's level,
then emit to the cloud logger (if enabled) and to the Zap logger (if
enabled). -/
def logImplf (l : Logger) (level : Level) (format : String)
    (args : List GoVal) : FlatTrace :=
  if levelLt level l.logLevel then { gclEntries := [], zapCalls := [], zapExits := false }
  else
    let gclEntries :=
      if l.googleCloudLoggingLogger then
        [{ payload := .str (fmtSprintf format args), labels := [],
           severity := gclSeverityFor level }]
      else []
    match (if l.zapLogger then levelToZapFlatLogFunc level else none) with
    | some f => { gclEntries := gclEntries, zapCalls := [f], zapExits := zapFlatFnExits f }
    | none => { gclEntries := gclEntries, zapCalls := [], zapExits := false }

/-- One iteration of the label-building loops of the final-revision
`logImpl`: string keys and values are used directly, other values are
rendered with `fmt.Sprint`. -/
def entryLabelInsert (labels : GoStrMap) (key value : GoVal) : GoStrMap :=
  match key with
  | .str stringKey =>
      match value with
      | .str stringValue => goInsert labels stringKey stringValue
      | _ => goInsert labels stringKey (goSprint value)
  | _ => goInsert labels (goSprint key) (goSprint value)

/-- The labels map built by the final-revision `logImpl`: first every
binding of the logger's common map, then the call-site pairs (which
therefore overwrite on collision). -/
def logImplLabels (common : GoMap) (keysAndValues : List GoVal) : GoStrMap :=
  (toPairs keysAndValues).foldl (fun acc kv => entryLabelInsert acc kv.1 kv.2)
    (common.foldl (fun acc kv => entryLabelInsert acc kv.1 kv.2) [])

/-- `(*Logger).logImpl(level, payload, keysAndValues...)` of the final
revision: panics (`none`) on an odd-length key/value list; otherwise
submits a labelled entry to the cloud logger (if enabled; the unit-test
debug hook receives the identical entry in place of the network logger)
and forwards to the Zap structured function (if enabled).  Note: no level
gate. -/
def logImpl (store : Store) (l : Logger) (level : Level) (payload : GoVal)
    (keysAndValues : List GoVal) : Option StructuredTrace :=
  if keysAndValues.length % 2 ≠ 0 then none
  else some (
    let gclEntries :=
      if l.googleCloudLoggingLogger then
        [{ payload := payload,
           labels := logImplLabels (storeGet store l.commonKeysAndValues) keysAndValues,
           severity := gclSeverityFor level }]
      else []
    match (if l.zapLogger then levelToZapStructuredLogFunc level else none) with
    | some f => { gclEntries := gclEntries, zapCalls := [f],
                  zapExits := zapStructuredFnExits f }
    | none => { gclEntries := gclEntries, zapCalls := [], zapExits := false })

/-- Result of `Fatalf`: the flat trace plus whether the Logger core itself
called `os.Exit(1)`. -/
structure FatalfResult where
  trace : FlatTrace
  coreExits : Bool
deriving DecidableEq, Repr

/-- Whether a `Fatalf` call terminated the process (by the Zap backend's
native exit or by the core's own `os.Exit(1)`). -/
def fatalfTerminates (r : FatalfResult) : Bool := r.trace.zapExits || r.coreExits

/-- `Tracef`: debug-level flat logging (compatibility alias of `Debugf`). -/
def Logger.Tracef (l : Logger) (format : String) (args : List GoVal) : FlatTrace :=
  logImplf l .debug format args

/-- `Debugf`: debug-level flat logging. -/
def Logger.Debugf (l : Logger) (format : String) (args : List GoVal) : FlatTrace :=
  logImplf l .debug format args

/-- `Printf`: debug-level flat logging (compatibility alias of `Debugf`). -/
def Logger.Printf (l : Logger) (format : String) (args : List GoVal) : FlatTrace :=
  logImplf l .debug format args

/-- `Infof`: info-level flat logging. -/
def Logger.Infof (l : Logger) (format : String) (args : List GoVal) : FlatTrace :=
  logImplf l .info format args

/-- `Warningf`: warning-level flat logging. -/
def Logger.Warningf (l : Logger) (format : String) (args : List GoVal) : FlatTrace :=
  logImplf l .warning format args

/-- `Errorf`: error-level flat logging. -/
def Logger.Errorf (l : Logger) (format : String) (args : List GoVal) : FlatTrace :=
  logImplf l .error format args

/-- `Fatalf`: fatal-level flat logging followed by `os.Exit(1)` when no
local Zap logger is present (when it is, Zap's own `Fatalf` has already
terminated the process). -/
def Logger.Fatalf (l : Logger) (format : String) (args : List GoVal) : FatalfResult :=
  { trace := logImplf l .fatal format args, coreExits := !l.zapLogger }

/-- `Panicf`: compatibility alias of `Fatalf`. -/
def Logger.Panicf (l : Logger) (format : String) (args : List GoVal) : FatalfResult :=
  Logger.Fatalf l format args

/-- `Trace`: debug-level structured logging (alias of `Debug`). -/
def Logger.Trace (store : Store) (l : Logger) (payload : GoVal)
    (keysAndValues : List GoVal) : Option StructuredTrace :=
  logImpl store l .debug payload keysAndValues

/-- `Debug`: debug-level structured logging. -/
def Logger.Debug (store : Store) (l : Logger) (payload : GoVal)
    (keysAndValues : List GoVal) : Option StructuredTrace :=
  logImpl store l .debug payload keysAndValues

/-- `Print`: debug-level structured logging (alias of `Debug`). -/
def Logger.Print (store : Store) (l : Logger) (payload : GoVal)
    (keysAndValues : List GoVal) : Option StructuredTrace :=
  logImpl store l .debug payload keysAndValues

/-- `Info`: info-level structured logging. -/
def Logger.Info (store : Store) (l : Logger) (payload : GoVal)
    (keysAndValues : List GoVal) : Option StructuredTrace :=
  logImpl store l .info payload keysAndValues

/-- `Warning`: warning-level structured logging. -/
def Logger.Warning (store : Store) (l : Logger) (payload : GoVal)
    (keysAndValues : List GoVal) : Option StructuredTrace :=
  logImpl store l .warning payload keysAndValues

/-- `Error`: error-level structured logging. -/
def Logger.Error (store : Store) (l : Logger) (payload : GoVal)
    (keysAndValues : List GoVal) : Option StructuredTrace :=
  logImpl store l .error payload keysAndValues

/-- `Fatal`: fatal-level structured logging (no exit logic of its own). -/
def Logger.Fatal (store : Store) (l : Logger) (payload : GoVal)
    (keysAndValues : List GoVal) : Option StructuredTrace :=
  logImpl store l .fatal payload keysAndValues

/-- `Panic`: compatibility alias of `Fatal`. -/
def Logger.Panic (store : Store) (l : Logger) (payload : GoVal)
    (keysAndValues : List GoVal) : Option StructuredTrace :=
  logImpl store l .fatal payload keysAndValues

/-- Lifecycle calls the module makes into the external backends. -/
inductive Action where
  | flushGoogleCloudLogging
  | syncZap
  | closeGoogleCloudLoggingClient
deriving DecidableEq, Repr

/-- The error returns of the external backend calls at the moment `Flush` /
`Close` run (`none` means the external call succeeds). -/
structure ExtCalls where
  googleCloudLoggingFlushErr : Option String
  zapSyncErr : Option String
  googleCloudLoggingCloseErr : Option String
deriving DecidableEq, Repr

/-- `(*Logger).Flush()`: flush the cloud logger first (returning its error
early, skipping the Zap sync), then sync the Zap logger.  Returns the
external calls made in order and the error result. -/
def Logger.Flush (l : Logger) (ext : ExtCalls) : List Action × Option String :=
  if l.googleCloudLoggingLogger then
    match ext.googleCloudLoggingFlushErr with
    | some e => ([.flushGoogleCloudLogging], some e)
    | none =>
        if l.zapLogger then ([.flushGoogleCloudLogging, .syncZap], ext.zapSyncErr)
        else ([.flushGoogleCloudLogging], none)
  else
    if l.zapLogger then ([.syncZap], ext.zapSyncErr)
    else ([], none)

/-- `(*Logger).Close()`: `_ = l.Flush()` (the flush error is discarded),
then close the cloud client, returning that close error if any. -/
def Logger.Close (l : Logger) (ext : ExtCalls) : List Action × Option String :=
  let flushed := Logger.Flush l ext
  if l.googleCloudLoggingClient then
    (flushed.1 ++ [.closeGoogleCloudLoggingClient], ext.googleCloudLoggingCloseErr)
  else (flushed.1, none)

/-- A monitored-resource descriptor
(`monitoredres.MonitoredResource{Type, Labels}`). -/
structure MonitoredResource where
  resourceType : String
  labels : GoStrMap
deriving DecidableEq, Repr

/-- Modelled from the spec: the option struct of the final revision
(`option.go` after the 1.1.0 "Stackdriver → Google Cloud Logging" rename)
is absent from the sources; its fields are reconstructed from their uses
in the final logging module (`NewLogger`, `createGoogleCloudLoggingLogger`,
`createZapLogger`) and from the surviving pre-rename `option.go`. -/
structure options where
  logLevel : Level := .debug
  gcpProjectID : String := ""
  credentialsFilePath : String := ""
  useZap : Bool := false
  outputPaths : List String := []
  errorOutputPaths : List String := []
  useGoogleCloudLogging : Bool := false
  googleCloudLoggingLogID : String := ""
  googleCloudLoggingMonitoredResource : Option MonitoredResource := none
  commonKeysAndValues : GoMap := []
  googleCloudLoggingUnitTestHook : Bool := false

/-- A `LogOption` is its `apply` method: a pure update of the option
struct. -/
abbrev LogOption := options → options

/-- `WithLevel(logLevel)`. -/
def WithLevel (logLevel : Level) : LogOption :=
  fun o => { o with logLevel := logLevel }

/-- `WithZap()` (final `option.go`: only sets `useZap`). -/
def WithZap : LogOption :=
  fun o => { o with useZap := true }

/-- `WithGoogleCloudLogging(projectID, credentialsFilePath, logID,
monitoredResource)`: the renamed `WithStackdriver` of the surviving
`option.go`; enables the cloud backend and records its parameters. -/
def WithGoogleCloudLogging (gcpProjectID credentialsFilePath
    googleCloudLoggingLogID : String)
    (monitoredResource : Option MonitoredResource) : LogOption :=
  fun o =>
    { o with useGoogleCloudLogging := true,
             gcpProjectID := gcpProjectID,
             googleCloudLoggingLogID := googleCloudLoggingLogID,
             credentialsFilePath := credentialsFilePath,
             googleCloudLoggingMonitoredResource := monitoredResource }

/-- `WithCommonKeysAndValues(kvs...)` seeding the initial common map. -/
def WithCommonKeysAndValues (commonKeysAndValues : GoMap) : LogOption :=
  fun o => { o with commonKeysAndValues := commonKeysAndValues }

/-- `opts := options{logLevel: Debug}; for _, o := range opt { o.apply(&opts) }`. -/
def applyOptions (opt : List LogOption) : options :=
  opt.foldl (fun o f => f o) {}

/-- Results of the external constructor calls made by `NewLogger` (`none`
means the external creation succeeds). -/
structure ExtNew where
  gclCreateErr : Option String
  zapBuildErr : Option String
deriving DecidableEq, Repr

/-- `NewLogger(opt...)` of the final revision: fold the options, reject a
cloud configuration without project id, create the requested backends
(the unit-test hook short-circuits cloud client creation), and assemble
the `Logger`.  The assembled logger's common map is placed in the store.
(The initial Zap common-label baking only hands the same map to the
external Zap logger and is not separately observable here.) -/
def NewLogger (opt : List LogOption) (ext : ExtNew) (store : Store) :
    Except String (Store × Logger) :=
  let opts := applyOptions opt
  if opts.useGoogleCloudLogging = true ∧ opts.gcpProjectID = "" then
    .error "google cloud logging requires a GCP project ID"
  else
    match (if opts.useGoogleCloudLogging then
             if opts.googleCloudLoggingUnitTestHook then Except.ok true
             else
               match ext.gclCreateErr with
               | some e => Except.error ("failed to create google cloud logging log: " ++ e)
               | none => Except.ok true
           else Except.ok false : Except String Bool) with
    | .error e => .error e
    | .ok hasGcl =>
      match (if opts.useZap then
               match ext.zapBuildErr with
               | some e => Except.error ("failed to create Zap logger: " ++ e)
               | none => Except.ok true
             else Except.ok false : Except String Bool) with
      | .error e => .error e
      | .ok hasZap =>
        let alloc := storeAlloc store opts.commonKeysAndValues
        .ok (alloc.1,
          { logLevel := opts.logLevel,
            googleCloudLoggingClient := hasGcl,
            googleCloudLoggingLogger := hasGcl,
            zapLogger := hasZap,
            commonKeysAndValues := alloc.2,
            googleCloudLoggingDebugHook := opts.googleCloudLoggingUnitTestHook })

/-- The process environment as read by `os.Getenv` (unset variables read
as the empty string). -/
abbrev GoEnv := String → String

/-- `internal.GetArg(n, args...)`. -/
def getArg (n : Int) (args : List String) : String × Bool :=
  if n < 0 then ("", false)
  else if args.length > n.toNat then (args.getD n.toNat "", true)
  else ("", false)

/-- `NewCloudFunctionLogger(args...)`: resolve the log id, probe the
`GCP_PROJECT`, `FUNCTION_NAME` and `FUNCTION_REGION` environment
variables, build the `cloud_function` resource descriptor and construct
the logger.  The third guard mirrors the source exactly: after reading
`FUNCTION_REGION` it re-tests `functionName` (not `functionRegion`). -/
def NewCloudFunctionLogger (args : List String) (env : GoEnv) (ext : ExtNew)
    (store : Store) : Except String (Store × Logger) :=
  let defaultLogID := "cloudfunctions.googleapis.com/cloud-functions"
  let arg0 := getArg 0 args
  let logID := if arg0.2 && arg0.1 ≠ "" then arg0.1 else defaultLogID
  let projectID := env "GCP_PROJECT"
  if projectID = "" then .error "env var GCP_PROJECT missing"
  else
    let functionName := env "FUNCTION_NAME"
    if functionName = "" then .error "env var FUNCTION_NAME missing"
    else
      let functionRegion := env "FUNCTION_REGION"
      if functionName = "" then .error "env var FUNCTION_REGION missing"
      else
        let monitoredRes : MonitoredResource :=
          { resourceType := "cloud_function",
            labels := [("project_id", projectID),
                       ("function_name", functionName),
                       ("region", functionRegion)] }
        NewLogger [WithGoogleCloudLogging projectID "" logID (some monitoredRes)]
          ext store

/-- `Except.isOk` helper for closed statements. -/
def exceptOk : Except String (Store × Logger) → Bool
  | .ok _ => true
  | .error _ => false

namespace BaseLogVariant

/-- `fmt.Sprintf("%v", x)` as used by the base-logger revision's label
loops. -/
def sprintfV (v : GoVal) : String := goSprint v

/-- `fmt.Sprintf("%+v", x)` as used by the base-logger revision's label
loops (identical to `%v` on scalar values). -/
def sprintfPlusV (v : GoVal) : String := goSprintPlus v

/-- The labels computation of the structured `logImpl` of the base-logger
revision (src/logging.go lines 441-458): the call-site pairs are written
into the map FIRST, and the logger's default (common) pairs are written
AFTERWARDS - so on a key collision the common field's value overwrites
the call-site value. -/
def logImplLabels (defaultKeysAndValues keysAndValues : List GoVal) : GoStrMap :=
  (toPairs defaultKeysAndValues).foldl
    (fun acc kv => goInsert acc (sprintfV kv.1) (sprintfPlusV kv.2))
    ((toPairs keysAndValues).foldl
      (fun acc kv => goInsert acc (sprintfV kv.1) (sprintfPlusV kv.2)) [])

end BaseLogVariant

/-- A warning-threshold Logger with only the cloud backend enabled. -/
def warnCloudLogger : Logger :=
  { logLevel := .warning, zapLogger := false, googleCloudLoggingClient := true,
    googleCloudLoggingLogger := true, commonKeysAndValues := 0,
    googleCloudLoggingDebugHook := false }

/-- A Logger with zero backends (the "null logger"). -/
def nullLogger : Logger :=
  { logLevel := .debug, zapLogger := false, googleCloudLoggingClient := false,
    googleCloudLoggingLogger := false, commonKeysAndValues := 0,
    googleCloudLoggingDebugHook := false }

/-- A debug-threshold Logger with only the cloud backend enabled (no local
Zap backend). -/
def cloudOnlyLogger : Logger :=
  { logLevel := .debug, zapLogger := false, googleCloudLoggingClient := true,
    googleCloudLoggingLogger := true, commonKeysAndValues := 0,
    googleCloudLoggingDebugHook := false }

/-- An environment with `GCP_PROJECT` and `FUNCTION_NAME` set but
`FUNCTION_REGION` unset. -/
def envRegionMissing : GoEnv := fun k =>
  if k = "GCP_PROJECT" then "my-project"
  else if k = "FUNCTION_NAME" then "my-function" else ""

/-! ### Map and store lemmas -/

theorem goLookup_goInsert [DecidableEq α] (m : GoAssoc α β) (k : α) (v : β) (x : α) :
    goLookup (goInsert m k v) x = if x = k then some v else goLookup m x := by
  induction m with
  | nil =>
      by_cases h : x = k
      · subst h; simp [goInsert, goLookup]
      · simp [goInsert, goLookup, h, Ne.symm h]
  | cons hd tl ih =>
      obtain ⟨k', v'⟩ := hd
      by_cases hk : k' = k
      · by_cases hx : x = k
        · simp [goInsert, goLookup, hk, hx]
        · have need1 : ¬ (k = x) := fun hh => hx hh.symm
          have need2 : ¬ (k' = x) := fun hh => hx (hh.symm.trans hk)
          simp [goInsert, goLookup, hk, hx, need1, need2]
      · by_cases hx : x = k'
        · have h1 : k' = x := hx.symm
          have h2 : ¬ (x = k) := fun hh => hk (hx.symm.trans hh)
          simp [goInsert, goLookup, hk, h1, h2]
        · have h3 : ¬ (k' = x) := fun hh => hx hh.symm
          simp [goInsert, goLookup, hk, h3, ih]

theorem goLookup_applyPairs [DecidableEq α] (ps : List (α × β)) (m : GoAssoc α β)
    (x : α) :
    goLookup (applyPairs ps m) x = orElseV (lastLookup ps x) (goLookup m x) := by
  induction ps generalizing m with
  | nil => simp [applyPairs, lastLookup, orElseV]
  | cons hd tl ih =>
      obtain ⟨k, v⟩ := hd
      simp only [applyPairs]
      rw [ih, goLookup_goInsert]
      simp only [lastLookup]
      cases h : lastLookup tl x with
      | some w => simp [orElseV]
      | none =>
          simp only [orElseV]
          by_cases hx : x = k
          · simp [hx]
          · simp [hx]

theorem lastLookup_eq_none [DecidableEq α] (ps : List (α × β)) (x : α)
    (h : x ∉ ps.map Prod.fst) : lastLookup ps x = none := by
  induction ps with
  | nil => rfl
  | cons hd tl ih =>
      obtain ⟨k, v⟩ := hd
      simp only [List.map_cons, List.mem_cons] at h
      push_neg at h
      simp only [lastLookup, ih h.2]
      rw [if_neg h.1]

theorem lastLookup_eq_goLookup [DecidableEq α] (ps : List (α × β))
    (h : (ps.map Prod.fst).Nodup) (x : α) : lastLookup ps x = goLookup ps x := by
  induction ps with
  | nil => rfl
  | cons hd tl ih =>
      obtain ⟨k, v⟩ := hd
      simp only [List.map_cons, List.nodup_cons] at h
      simp only [lastLookup, goLookup]
      by_cases hx : x = k
      · subst hx
        rw [lastLookup_eq_none tl x h.1]
        simp
      · rw [ih h.2, if_neg (fun hh : k = x => hx hh.symm), if_neg hx]
        cases hg : goLookup tl x <;> rfl

theorem orElseV_none (a : Option β) : orElseV a none = a := by
  cases a <;> rfl

theorem storeGet_append_lt (s : Store) (m : GoMap) (i : Nat) (h : i < s.length) :
    storeGet (s ++ [m]) i = storeGet s i := by
  induction s generalizing i with
  | nil => exact absurd h (Nat.not_lt_zero i)
  | cons x rest ih =>
      cases i with
      | zero => rfl
      | succ j => exact ih j (Nat.lt_of_succ_lt_succ h)

theorem storeGet_append_length (s : Store) (m : GoMap) :
    storeGet (s ++ [m]) s.length = m := by
  induction s with
  | nil => rfl
  | cons x rest ih => exact ih

theorem storeGet_storeSet_self (s : Store) (i : Nat) (m : GoMap)
    (h : i < s.length) : storeGet (storeSet s i m) i = m := by
  induction s generalizing i with
  | nil => exact absurd h (Nat.not_lt_zero i)
  | cons x rest ih =>
      cases i with
      | zero => rfl
      | succ j => exact ih j (Nat.lt_of_succ_lt_succ h)

theorem storeGet_storeSet_ne (s : Store) (i j : Nat) (m : GoMap) (h : i ≠ j) :
    storeGet (storeSet s i m) j = storeGet s j := by
  induction s generalizing i j with
  | nil => rfl
  | cons x rest ih =>
      cases i with
      | zero =>
          cases j with
          | zero => exact absurd rfl h
          | succ j' => rfl
      | succ i' =>
          cases j with
          | zero => rfl
          | succ j' => exact ih i' j' (fun hh => h (by rw [hh]))

/-! ### Claim C1 -/

/-- C1 (amended): for every Logger whose common-fields map is a valid,
well-formed map and every NON-EMPTY even-length key/value sequence `g`
whose keys are pairwise distinct, `WithAdditionalKeysAndValues(g)` returns
a new Logger whose common-fields map is the merge of the parent's fields
with `g` - `g`'s value winning on every key collision - while the parent's
own common-fields map is left unchanged (a fresh map is allocated; the
parent is not mutated) and every other field of the parent is copied. -/
theorem withAdditionalKeysAndValues_merges_preserving_parent
    (store : Store) (l : Logger) (g : List GoVal)
    (hne : g.length ≠ 0) (heven : g.length % 2 = 0)
    (hg : ((toPairs g).map Prod.fst).Nodup)
    (href : l.commonKeysAndValues < store.length)
    (hf : ((storeGet store l.commonKeysAndValues).map Prod.fst).Nodup) :
    ∃ st lg, withAdditionalKeysAndValues store l g = some (st, lg) ∧
      (∀ k : GoVal, goLookup (storeGet st lg.commonKeysAndValues) k =
        orElseV (goLookup (toPairs g) k)
          (goLookup (storeGet store l.commonKeysAndValues) k)) ∧
      storeGet st l.commonKeysAndValues = storeGet store l.commonKeysAndValues ∧
      lg.commonKeysAndValues ≠ l.commonKeysAndValues ∧
      lg.logLevel = l.logLevel ∧ lg.zapLogger = l.zapLogger ∧
      lg.googleCloudLoggingClient = l.googleCloudLoggingClient ∧
      lg.googleCloudLoggingLogger = l.googleCloudLoggingLogger := by
  have h2 : ¬ (g.length % 2 ≠ 0) := by omega
  have heq : withAdditionalKeysAndValues store l g =
      some (storeSet (store ++ [goMapCopy (storeGet store l.commonKeysAndValues)])
              store.length
              (applyPairs (toPairs g)
                (storeGet (store ++ [goMapCopy (storeGet store l.commonKeysAndValues)])
                  store.length)),
            { l with commonKeysAndValues := store.length }) := by
    simp only [withAdditionalKeysAndValues, mustApplyKeysAndValues, storeAlloc]
    rw [if_neg hne, if_neg h2, if_neg hne, if_neg h2]
  have hlen : store.length <
      (store ++ [goMapCopy (storeGet store l.commonKeysAndValues)]).length := by
    simp
  refine ⟨_, _, heq, ?_, ?_, ?_, rfl, rfl, rfl, rfl⟩
  · intro k
    show goLookup (storeGet (storeSet
      (store ++ [goMapCopy (storeGet store l.commonKeysAndValues)]) store.length
      (applyPairs (toPairs g)
        (storeGet (store ++ [goMapCopy (storeGet store l.commonKeysAndValues)])
          store.length))) store.length) k = _
    rw [storeGet_append_length, storeGet_storeSet_self _ _ _ hlen,
      goLookup_applyPairs, lastLookup_eq_goLookup _ hg]
    simp only [goMapCopy]
    rw [goLookup_applyPairs]
    simp only [goLookup]
    rw [orElseV_none, lastLookup_eq_goLookup _ hf]
  · show storeGet (storeSet
      (store ++ [goMapCopy (storeGet store l.commonKeysAndValues)]) store.length
      (applyPairs (toPairs g)
        (storeGet (store ++ [goMapCopy (storeGet store l.commonKeysAndValues)])
          store.length))) l.commonKeysAndValues = _
    rw [storeGet_storeSet_ne _ _ _ _ (Nat.ne_of_lt href).symm,
      storeGet_append_lt _ _ _ href]
  · exact (Nat.ne_of_lt href).symm

/-- C1 witness: the amended theorem applied at the concrete parent map
`key1 ↦ value1` and the addition `key3 ↦ 123`. -/
theorem withAdditionalKeysAndValues_merges_witness :
    ∃ st lg, withAdditionalKeysAndValues [[(GoVal.str "key1", GoVal.str "value1")]]
        { logLevel := .debug, zapLogger := false, googleCloudLoggingClient := false,
          googleCloudLoggingLogger := false, commonKeysAndValues := 0,
          googleCloudLoggingDebugHook := false }
        [.str "key3", .int 123] = some (st, lg) ∧
      (∀ k : GoVal, goLookup (storeGet st lg.commonKeysAndValues) k =
        orElseV (goLookup (toPairs [GoVal.str "key3", GoVal.int 123]) k)
          (goLookup (storeGet [[(GoVal.str "key1", GoVal.str "value1")]] 0) k)) ∧
      storeGet st 0 = storeGet [[(GoVal.str "key1", GoVal.str "value1")]] 0 ∧
      lg.commonKeysAndValues ≠ 0 ∧
      lg.logLevel = .debug ∧ lg.zapLogger = false ∧
      lg.googleCloudLoggingClient = false ∧
      lg.googleCloudLoggingLogger = false :=
  withAdditionalKeysAndValues_merges_preserving_parent
    [[(GoVal.str "key1", GoVal.str "value1")]]
    { logLevel := .debug, zapLogger := false, googleCloudLoggingClient := false,
      googleCloudLoggingLogger := false, commonKeysAndValues := 0,
      googleCloudLoggingDebugHook := false }
    [.str "key3", .int 123]
    (by decide) (by decide) (by decide) (by decide) (by decide)

/-- C1 counterexample: the empty key/value sequence has even length, yet
`WithAdditionalKeysAndValues` panics on it (`must pass keys and values`)
instead of returning a derived Logger. -/
theorem withAdditionalKeysAndValues_empty_counterexample :
    withAdditionalKeysAndValues [[(GoVal.str "key1", GoVal.str "value1")]]
      { logLevel := .debug, zapLogger := false, googleCloudLoggingClient := false,
        googleCloudLoggingLogger := false, commonKeysAndValues := 0,
        googleCloudLoggingDebugHook := false } [] = none := rfl

/-! ### Claim C10 -/

/-- C10: in the final Logger revision, `WithAdditionalKeysAndValues` called
with a zero-length key/value sequence panics (fails fast) even though zero
is an even length; every derivation requires at least one pair. -/
theorem withAdditionalKeysAndValues_nil_panics (store : Store) (l : Logger) :
    withAdditionalKeysAndValues store l [] = none := rfl

/-! ### Claim C2 -/

/-- C2 (amended): for every Logger whose level threshold is Warning, a
FORMATTED log call at Debug or Info level reaches no backend's emit, and
a formatted call at Warning, Error or Fatal level reaches every configured
backend's emit exactly once per call; a STRUCTURED call with an even-length
field list, however, reaches every configured backend's emit exactly once
per call at every level - the structured path applies no level gate. -/
theorem levelGate_warning (l : Logger) (hw : l.logLevel = .warning) :
    (∀ format args level, (level = Level.debug ∨ level = Level.info) →
        logImplf l level format args =
          { gclEntries := [], zapCalls := [], zapExits := false }) ∧
    (∀ format args level,
        (level = Level.warning ∨ level = Level.error ∨ level = Level.fatal) →
        (logImplf l level format args).gclEntries.length =
            (if l.googleCloudLoggingLogger then 1 else 0) ∧
        (logImplf l level format args).zapCalls.length =
            (if l.zapLogger then 1 else 0)) ∧
    (∀ store level payload kvs, kvs.length % 2 = 0 →
        (logImpl store l level payload kvs).map
            (fun t => (t.gclEntries.length, t.zapCalls.length)) =
          some ((if l.googleCloudLoggingLogger then 1 else 0),
                (if l.zapLogger then 1 else 0))) := by
  refine ⟨?_, ?_, ?_⟩
  · rintro format args level (rfl | rfl) <;>
      simp [logImplf, hw, levelLt, Level.toNat]
  · rintro format args level (rfl | rfl | rfl) <;>
      cases hG : l.googleCloudLoggingLogger <;> cases hZ : l.zapLogger <;>
      simp [logImplf, hw, hG, hZ, levelLt, Level.toNat, levelToZapFlatLogFunc]
  · intro store level payload kvs hkv
    have h1 : ¬ (kvs.length % 2 ≠ 0) := by omega
    cases hG : l.googleCloudLoggingLogger <;> cases hZ : l.zapLogger <;>
      cases level <;>
      simp [logImpl, h1, hG, hZ, levelToZapStructuredLogFunc]

/-- C2 witness: the amended theorem applied to the warning-threshold
cloud-only Logger and a structured debug call. -/
theorem levelGate_warning_witness :
    (logImpl [[]] warnCloudLogger .debug (.str "m") []).map
        (fun t => (t.gclEntries.length, t.zapCalls.length)) =
      some ((if warnCloudLogger.googleCloudLoggingLogger then 1 else 0),
            (if warnCloudLogger.zapLogger then 1 else 0)) :=
  (levelGate_warning warnCloudLogger rfl).2.2 [[]] .debug (.str "m") [] rfl

/-- C2 counterexample: on a warning-threshold Logger with a cloud backend,
a structured Debug-level call submits one entry to the cloud backend - the
claim requires zero emissions below the threshold. -/
theorem levelGate_warning_counterexample :
    (logImpl [[]] warnCloudLogger .debug (.str "below threshold") []).map
        (fun t => t.gclEntries.length) = some 1 := rfl

/-! ### Claim C3 -/

/-- C3: in the base-logger revision's structured `logImpl`
(src/logging.go), the logger's default (common) pairs are written into
the labels map AFTER the call-site pairs, so on the collision key `key1`
the submitted label carries the common field's value - not the call-site
value the claim (and the specification's "call-site wins" policy)
requires. -/
theorem baseLogVariant_common_overwrites_callsite :
    goLookup (BaseLogVariant.logImplLabels
        [.str "key1", .str "common value"] [.str "key1", .str "callsite value"])
      "key1" = some "common value" ∧
    some "common value" ≠ some "callsite value" := by
  refine ⟨rfl, ?_⟩
  decide

/-! ### Claim C4 -/

/-- C4 (amended): the formatted fatal verbs (`Fatalf`, and `Panicf` which
aliases it) always terminate the process after emission - the core calls
`os.Exit(1)` exactly when no local Zap backend is present (otherwise Zap's
native `Fatalf` already exits) - while the structured fatal verbs
terminate only through a present local Zap backend's native exit: with no
Zap backend a structured Fatal/Panic returns without terminating. -/
theorem fatal_termination :
    (∀ l format args,
        fatalfTerminates (Logger.Fatalf l format args) = true ∧
        (Logger.Fatalf l format args).coreExits = !l.zapLogger) ∧
    (∀ store l payload kvs, kvs.length % 2 = 0 →
        (Logger.Fatal store l payload kvs).map (fun t => t.zapExits) =
          some l.zapLogger) := by
  refine ⟨?_, ?_⟩
  · intro l format args
    refine ⟨?_, rfl⟩
    cases hz : l.zapLogger <;> cases hL : l.logLevel <;>
      simp [Logger.Fatalf, fatalfTerminates, logImplf, hz, hL, levelLt,
        Level.toNat, levelToZapFlatLogFunc, zapFlatFnExits]
  · intro store l payload kvs hkv
    have h1 : ¬ (kvs.length % 2 ≠ 0) := by omega
    cases hz : l.zapLogger <;>
      simp [Logger.Fatal, logImpl, h1, hz, levelToZapStructuredLogFunc,
        zapStructuredFnExits]

/-- C4 witness: the amended theorem applied to the cloud-only Logger. -/
theorem fatal_termination_witness :
    fatalfTerminates (Logger.Fatalf cloudOnlyLogger "bye" []) = true ∧
    (Logger.Fatal [[]] cloudOnlyLogger (.str "p") []).map (fun t => t.zapExits) =
      some cloudOnlyLogger.zapLogger :=
  ⟨(fatal_termination.1 cloudOnlyLogger "bye" []).1,
   fatal_termination.2 [[]] cloudOnlyLogger (.str "p") [] rfl⟩

/-- C4 counterexample: a structured Fatal on a Logger with only the cloud
backend emits its entry but does not terminate the process, contradicting
the claim that every Fatal-level call terminates. -/
theorem structuredFatal_no_exit_counterexample :
    (Logger.Fatal [[]] cloudOnlyLogger (.str "fatal payload") []).map
        (fun t => (t.gclEntries.length, t.zapExits)) = some (1, false) := rfl

/-! ### Claim C5 -/

/-- C5 (amended): `Close()` always performs the `Flush()` calls before
releasing the cloud client, but the flush error is discarded (`_ =
l.Flush()`): `Close` returns the client-release error when the release
fails and `nil` otherwise, never the flush error. -/
theorem close_flushes_then_releases (l : Logger) (ext : ExtCalls) :
    (Logger.Close l ext).1 =
      (Logger.Flush l ext).1 ++
        (if l.googleCloudLoggingClient then
          [Action.closeGoogleCloudLoggingClient] else []) ∧
    (Logger.Close l ext).2 =
      (if l.googleCloudLoggingClient then ext.googleCloudLoggingCloseErr
       else none) := by
  cases hc : l.googleCloudLoggingClient <;> simp [Logger.Close, hc]

/-- C5 counterexample: with both a failing flush and a failing client
release, `Close` returns the release error, not the flush error the claim
requires. -/
theorem close_flush_error_discarded_counterexample :
    (Logger.Close cloudOnlyLogger
        { googleCloudLoggingFlushErr := some "flush failed",
          zapSyncErr := none,
          googleCloudLoggingCloseErr := some "close failed" }).2 =
      some "close failed" ∧
    (some "close failed" : Option String) ≠ some "flush failed" := by
  refine ⟨rfl, ?_⟩
  decide

/-! ### Claim C6 -/

/-- C6 (amended): a Logger with zero backends accepts every log verb
without error and emits nothing to any backend; the only side effect is
that the formatted fatal verbs (`Fatalf`/`Panicf`) still terminate the
process - with no local Zap backend the core itself calls `os.Exit(1)`. -/
theorem nullLogger_noop (l : Logger)
    (hg : l.googleCloudLoggingLogger = false) (hz : l.zapLogger = false) :
    (∀ level format args, logImplf l level format args =
        { gclEntries := [], zapCalls := [], zapExits := false }) ∧
    (∀ format args, (Logger.Fatalf l format args).trace =
        { gclEntries := [], zapCalls := [], zapExits := false } ∧
        (Logger.Fatalf l format args).coreExits = true) ∧
    (∀ store level payload kvs, kvs.length % 2 = 0 →
        logImpl store l level payload kvs =
          some { gclEntries := [], zapCalls := [], zapExits := false }) := by
  refine ⟨?_, ?_, ?_⟩
  · intro level format args
    simp [logImplf, hg, hz]
  · intro format args
    refine ⟨?_, ?_⟩
    · simp [Logger.Fatalf, logImplf, hg, hz]
    · simp [Logger.Fatalf, hz]
  · intro store level payload kvs hkv
    have h1 : ¬ (kvs.length % 2 ≠ 0) := by omega
    simp [logImpl, h1, hg, hz]

/-- C6 witness: the amended theorem applied to the zero-backend Logger
and a structured info call. -/
theorem nullLogger_noop_witness :
    logImpl [[]] nullLogger .info (.str "m") [] =
      some { gclEntries := [], zapCalls := [], zapExits := false } :=
  (nullLogger_noop nullLogger rfl rfl).2.2 [[]] .info (.str "m") [] rfl

/-- C6 counterexample: on the zero-backend Logger the formatted fatal verb
terminates the process (the core's own `os.Exit(1)`), so not every log
verb is free of side effects. -/
theorem nullLogger_fatalf_terminates_counterexample :
    fatalfTerminates (Logger.Fatalf nullLogger "goodbye" []) = true := rfl

/-! ### Claim C7 -/

/-- C7: every option list that enables the cloud backend while leaving the
project id empty makes `NewLogger` fail deterministically with the
configuration error; no Logger is produced and no default project id is
substituted. -/
theorem newLogger_empty_project_fails
    (opt : List LogOption) (ext : ExtNew) (store : Store)
    (hremote : (applyOptions opt).useGoogleCloudLogging = true)
    (hempty : (applyOptions opt).gcpProjectID = "") :
    NewLogger opt ext store =
      .error "google cloud logging requires a GCP project ID" := by
  simp [NewLogger, hremote, hempty]

/-- C7 witness: the theorem applied to the single option
`WithGoogleCloudLogging("", "", "mylog", nil)`. -/
theorem newLogger_empty_project_fails_witness :
    NewLogger [WithGoogleCloudLogging "" "" "mylog" none]
        { gclCreateErr := none, zapBuildErr := none } [] =
      .error "google cloud logging requires a GCP project ID" :=
  newLogger_empty_project_fails [WithGoogleCloudLogging "" "" "mylog" none]
    { gclCreateErr := none, zapBuildErr := none } [] rfl rfl

/-! ### Claim C8 -/

/-- C8: every structured log verb and `WithAdditionalKeysAndValues` panic
(fail fast, modelled as `none`) on an odd-length flat key/value sequence
rather than silently dropping the dangling key. -/
theorem odd_length_fails_fast
    (store : Store) (l : Logger) (payload : GoVal) (kvs : List GoVal)
    (hodd : kvs.length % 2 = 1) :
    Logger.Trace store l payload kvs = none ∧
    Logger.Debug store l payload kvs = none ∧
    Logger.Print store l payload kvs = none ∧
    Logger.Info store l payload kvs = none ∧
    Logger.Warning store l payload kvs = none ∧
    Logger.Error store l payload kvs = none ∧
    Logger.Fatal store l payload kvs = none ∧
    Logger.Panic store l payload kvs = none ∧
    withAdditionalKeysAndValues store l kvs = none := by
  have h1 : kvs.length % 2 ≠ 0 := by omega
  have h0 : kvs.length ≠ 0 := by omega
  refine ⟨?_, ?_, ?_, ?_, ?_, ?_, ?_, ?_, ?_⟩ <;>
    simp [Logger.Trace, Logger.Debug, Logger.Print, Logger.Info,
      Logger.Warning, Logger.Error, Logger.Fatal, Logger.Panic, logImpl,
      withAdditionalKeysAndValues, h1, h0]

/-- C8 witness: the theorem applied to the one-element sequence
`["dangling"]`. -/
theorem odd_length_fails_fast_witness :
    Logger.Trace [[]] nullLogger (.str "p") [.str "dangling"] = none ∧
    Logger.Debug [[]] nullLogger (.str "p") [.str "dangling"] = none ∧
    Logger.Print [[]] nullLogger (.str "p") [.str "dangling"] = none ∧
    Logger.Info [[]] nullLogger (.str "p") [.str "dangling"] = none ∧
    Logger.Warning [[]] nullLogger (.str "p") [.str "dangling"] = none ∧
    Logger.Error [[]] nullLogger (.str "p") [.str "dangling"] = none ∧
    Logger.Fatal [[]] nullLogger (.str "p") [.str "dangling"] = none ∧
    Logger.Panic [[]] nullLogger (.str "p") [.str "dangling"] = none ∧
    withAdditionalKeysAndValues [[]] nullLogger [.str "dangling"] = none :=
  odd_length_fails_fast [[]] nullLogger (.str "p") [.str "dangling"] rfl

/-! ### Claim C9 -/

/-- C9: with `GCP_PROJECT` and `FUNCTION_NAME` set but `FUNCTION_REGION`
unset (empty), `NewCloudFunctionLogger` nevertheless constructs and
returns a Logger: the region guard in the source re-tests `functionName`
instead of `functionRegion`, so the `env var FUNCTION_REGION missing`
error is unreachable whenever `FUNCTION_NAME` is set. -/
theorem cloudFunctionLogger_missing_region_accepted :
    envRegionMissing "FUNCTION_REGION" = "" ∧
    exceptOk (NewCloudFunctionLogger [] envRegionMissing
      { gclCreateErr := none, zapBuildErr := none } []) = true := ⟨rfl, rfl⟩

end Cloudlogging
